import Mathlib

/-!
Shallow embedding of the AI-Travel-Guide backend (FastAPI + FAISS memory store),
covering `src/backend/app/vector_store.py`, `src/backend/app/langchain_integration.py`
and `src/backend/app/main.py`.

External collaborators are modelled as explicit parameters:
the sentence-embedding model is an abstract `encode : String → List ℚ`
(float vectors are modelled with exact rationals), the language-model agent is an
abstract `agentRun : String → String`, the bcrypt check is an abstract
`checkpw : String → String → Bool`, the Supabase `users` table is a `List DBUser`,
and wall-clock time is a `Nat` of seconds passed in explicitly.
A Python expression that can raise (indexing a list out of range) is modelled
with `Option`: `none` is the raised `IndexError`.
-/

namespace TravelGuide

/-! ### vector_store.py — the FAISS flat-L2 index and the memory store -/

/-- Squared Euclidean (L2) distance between two embedding vectors, the metric of
`faiss.IndexFlatL2`. -/
def l2sq (u v : List ℚ) : ℚ :=
  (List.zipWith (fun a b => (a - b) * (a - b)) u v).sum

/-- Order in which the flat index ranks stored vector positions for a query:
by increasing squared L2 distance, ties broken by lower position. -/
def faissOrder (vectors : List (List ℚ)) (q : List ℚ) (i j : Nat) : Prop :=
  l2sq q (vectors.getD i []) < l2sq q (vectors.getD j []) ∨
    (l2sq q (vectors.getD i []) = l2sq q (vectors.getD j []) ∧ i ≤ j)

instance (vectors : List (List ℚ)) (q : List ℚ) : DecidableRel (faissOrder vectors q) :=
  fun i j => by unfold faissOrder; exact inferInstance

/-- Result row of `faiss.IndexFlatL2.search` for one query vector: the `k` label
slots, holding the positions of the nearest stored vectors in increasing distance
order, padded with `-1` when fewer than `k` vectors are stored. -/
def faissIndexSearch (vectors : List (List ℚ)) (q : List ℚ) (k : Nat) : List Int :=
  let sorted := List.insertionSort (faissOrder vectors q) (List.range vectors.length)
  (sorted.take k).map (fun i => (i : Int)) ++ List.replicate (k - vectors.length) (-1)

/-- Python list indexing `xs[i]`: a nonnegative index reads from the front, a
negative index `i` reads position `len xs + i`, and any out-of-range access
raises `IndexError` (modelled as `none`). -/
def pyGet (xs : List String) (i : Int) : Option String :=
  if 0 ≤ i then xs[i.toNat]?
  else if (-i).toNat ≤ xs.length then xs[xs.length - (-i).toNat]? else none

/-- Python list comprehension body over a list of indices: evaluates `f` on each
element and raises (propagates `none`) on the first failure. -/
def pyMap (f : Int → Option String) : List Int → Option (List String)
  | [] => some []
  | i :: is =>
    match f i with
    | none => none
    | some r =>
      match pyMap f is with
      | none => none
      | some rs => some (r :: rs)

/-- State of `FAISSStore`: the flat index contents (`self.index`), the parallel
text list (`self.texts`) and the configured embedding dimensionality. -/
structure FAISSStore where
  embedding_dim : Nat
  vectors : List (List ℚ)
  texts : List String
  deriving DecidableEq

/-- The `FAISSStore()` constructor with its default `embedding_dim = 384`:
an empty flat index and an empty text list. -/
def FAISSStore.new : FAISSStore :=
  { embedding_dim := 384, vectors := [], texts := [] }

/-- `FAISSStore.add_text`: embed the text, add the one resulting vector to the
index, and append the text to `self.texts`. -/
def FAISSStore.add_text (encode : String → List ℚ) (s : FAISSStore) (text : String) :
    FAISSStore :=
  { s with vectors := s.vectors ++ [encode text], texts := s.texts ++ [text] }

/-- `FAISSStore.search`: embed the query, run the flat-index search for `top_k`
labels, and build `[self.texts[i] for i in indices[0] if i < len(self.texts)]`.
The guard keeps every label `i < len(texts)` — including the `-1` padding labels
— and the body indexes `self.texts` with Python semantics, so it raises
(`none`) when a `-1` label meets an empty text list. -/
def FAISSStore.search (encode : String → List ℚ) (s : FAISSStore) (query : String)
    (top_k : Nat) : Option (List String) :=
  let query_embedding := encode query
  let indices := faissIndexSearch s.vectors query_embedding top_k
  pyMap (pyGet s.texts) (indices.filter (fun i => decide (i < (s.texts.length : Int))))

/-- A client-visible operation on the shared memory store. -/
inductive MemOp where
  | add (text : String)
  | search (query : String) (k : Nat)
  deriving DecidableEq

/-- Run a sequence of store operations. `add_text` is the only mutation in
`vector_store.py`: `search` calls `index.search` (a read) and builds a fresh
result list, leaving `self.index` and `self.texts` untouched, also when the
list indexing raises. -/
def runOps (encode : String → List ℚ) (s : FAISSStore) : List MemOp → FAISSStore
  | [] => s
  | MemOp.add t :: ops => runOps encode (s.add_text encode t) ops
  | MemOp.search _ _ :: ops => runOps encode s ops

/-- The texts contributed by the `add` operations of a sequence, in order. -/
def addedTexts (ops : List MemOp) : List String :=
  ops.filterMap (fun op =>
    match op with
    | MemOp.add t => some t
    | MemOp.search _ _ => none)

/-! ### langchain_integration.py — weather tool and chat orchestrator -/

/-- The parts of the weather provider's HTTP reply that `OpenWeatherTool._run`
reads: the status code, `data["weather"][0]["description"]`, and the rendered
form of `data["main"]["temp"]`. -/
structure WeatherResponse where
  status_code : Nat
  description : String
  temp : String
  deriving DecidableEq

namespace OpenWeatherTool

/-- `OpenWeatherTool._run`: one GET to the weather provider (its reply passed in
as `response`); on status 200 format the description-plus-temperature sentence
(the source file's literal has the mojibake degree sign `Â°`), otherwise return
the fixed unable-to-fetch sentence. -/
def run (response : WeatherResponse) (query : String) : String :=
  if response.status_code = 200 then
    "In " ++ query ++ ", the weather is '" ++ response.description ++
      "' with a temperature of " ++ response.temp ++ "Â°C."
  else
    "Unable to fetch weather data for " ++ query ++ "."

end OpenWeatherTool

/-- The profile dictionary handed to `process_query`; `travel_preferences`
stands for the rendered (f-string) form of the preference mapping. -/
structure ChatProfile where
  email : String
  full_name : String
  travel_preferences : String
  deriving DecidableEq

/-- The `profile_str` built in `process_query`. -/
def profile_str (p : ChatProfile) : String :=
  "Email: " ++ p.email ++ ", Full Name: " ++ p.full_name ++
    ", Preferences: " ++ p.travel_preferences

/-- The `faiss_context` of `process_query`: empty when the search result list is
empty, otherwise the first result prefixed with the fixed marker. -/
def faiss_context_of (results : List String) : String :=
  match results with
  | [] => ""
  | r :: _ => "Relevant historical data: " ++ r

/-- The `pre_prompt` composed in `process_query`. -/
def pre_prompt_of (p : ChatProfile) (query : String) (results : List String) : String :=
  "User Profile: " ++ profile_str p ++ "\n" ++
    "User Query: " ++ query ++ "\n" ++
    faiss_context_of results ++ "\n" ++
    "Using the above information, fetch relevant weather data and travel details. " ++
    "Provide a detailed travel recommendation with citations."

/-- `process_query`: search the store for the one nearest prior response
(`top_k = 1`; a raised `IndexError` aborts the call, `none`), build the
pre-prompt, run the agent on it, append the raw agent response to the store,
and return the response together with the new store state. -/
def process_query (encode : String → List ℚ) (agentRun : String → String)
    (store : FAISSStore) (query : String) (p : ChatProfile) :
    Option (String × FAISSStore) :=
  match store.search encode query 1 with
  | none => none
  | some faiss_results =>
    let response := agentRun (pre_prompt_of p query faiss_results)
    some (response, store.add_text encode response)

/-! ### main.py — identity, tokens and HTTP endpoints -/

/-- A row of the Supabase `users` table; `travel_preferences` stands for the
stored preference mapping (opaque payload here). -/
structure DBUser where
  id : String
  email : String
  hashed_password : String
  full_name : String
  travel_preferences : String
  deriving DecidableEq

/-- Row lookup `supabase.table("users").select("*").eq("email", email)`,
yielding the first matching row if any. -/
def findUser (db : List DBUser) (email : String) : Option DBUser :=
  db.find? (fun u => u.email == email)

/-- Decoded payload of the access token: the `sub` claim set by
`create_access_token` (absent if the issuer put no `sub` in the data) and the
`exp` claim, an absolute expiry in seconds. Tokens are modelled as their
correctly-signed payloads; a token whose signature does not verify is rejected
by `jwt.decode` with the same `PyJWTError` path as an expired one. -/
structure TokenPayload where
  sub : Option String
  exp : Nat
  deriving DecidableEq

/-- The configured token lifetime, `ACCESS_TOKEN_EXPIRE_MINUTES = 30`. -/
def ACCESS_TOKEN_EXPIRE_MINUTES : Nat := 30

/-- `create_access_token`: expiry is `utcnow` plus the given delta, or plus the
configured 30 minutes when no delta is passed; the `sub` claim is the data
passed in. `expires_delta` is in seconds. -/
def create_access_token (now : Nat) (sub : String) (expires_delta : Option Nat) :
    TokenPayload :=
  { sub := some sub,
    exp := now + expires_delta.getD (ACCESS_TOKEN_EXPIRE_MINUTES * 60) }

/-- The `{access_token, token_type}` body returned by `/login`. -/
structure TokenResponse where
  access_token : TokenPayload
  token_type : String
  deriving DecidableEq

/-- An HTTP error response: status code and detail string. -/
abbrev HttpError := Nat × String

/-- The 401 raised by `get_current_user` on any token problem. -/
def credentialsException : HttpError := (401, "Could not validate credentials")

/-- `jwt.decode` on a correctly-signed token: PyJWT validates the `exp` claim
against the current time (zero leeway) and raises `ExpiredSignatureError`
(a `PyJWTError`) when the expiry is not in the future. -/
def jwtDecode (now : Nat) (token : TokenPayload) : Except Unit TokenPayload :=
  if token.exp ≤ now then Except.error () else Except.ok token

/-- `get_current_user`: decode the bearer token (any `PyJWTError`, in
particular an expired token, yields the 401 credentials exception), require a
`sub` claim, and require a `users` row with that email. -/
def get_current_user (now : Nat) (db : List DBUser) (token : TokenPayload) :
    Except HttpError DBUser :=
  match jwtDecode now token with
  | Except.error _ => Except.error credentialsException
  | Except.ok payload =>
    match payload.sub with
    | none => Except.error credentialsException
    | some email =>
      match findUser db email with
      | none => Except.error credentialsException
      | some u => Except.ok u

/-- `POST /login`: look up the row by the form's username; a missing row or a
failed bcrypt check both yield 400 with the identical generic detail;
otherwise issue a token for the stored email with a 30-minute expiry delta. -/
def login (checkpw : String → String → Bool) (now : Nat) (db : List DBUser)
    (username password : String) : Except HttpError TokenResponse :=
  match findUser db username with
  | none => Except.error (400, "Incorrect email or password")
  | some user =>
    if checkpw password user.hashed_password then
      Except.ok
        { access_token :=
            create_access_token now user.email (some (ACCESS_TOKEN_EXPIRE_MINUTES * 60)),
          token_type := "bearer" }
    else
      Except.error (400, "Incorrect email or password")

/-- `GET /profile`: the authenticated user's row, passed through. -/
def read_profile (now : Nat) (db : List DBUser) (token : TokenPayload) :
    Except HttpError DBUser :=
  get_current_user now db token

/-- Request body of `PUT /profile` (the `UserProfile` pydantic model). -/
structure UserProfileBody where
  id : Option String
  email : String
  full_name : String
  travel_preferences : String
  deriving DecidableEq

/-- `PUT /profile`: authenticate, then update the `full_name` and
`travel_preferences` columns of every row whose `email` equals the
authenticated user's email, and re-select that row for the response. -/
def update_profile (now : Nat) (db : List DBUser) (token : TokenPayload)
    (body : UserProfileBody) : Except HttpError (List DBUser × Option DBUser) :=
  match get_current_user now db token with
  | Except.error e => Except.error e
  | Except.ok current =>
    let db2 := db.map (fun u =>
      if u.email = current.email then
        { u with full_name := body.full_name,
                 travel_preferences := body.travel_preferences }
      else u)
    Except.ok (db2, findUser db2 current.email)

/-- `POST /chat`: authenticate, reject an empty query with 400, build the
profile dictionary from the authenticated row and run `process_query`; an
uncaught exception inside it (the `IndexError` from the empty-store search)
surfaces as the serving layer's 500. -/
def chat (encode : String → List ℚ) (agentRun : String → String) (now : Nat)
    (db : List DBUser) (store : FAISSStore) (token : TokenPayload) (query : String) :
    Except HttpError (String × FAISSStore) :=
  match get_current_user now db token with
  | Except.error e => Except.error e
  | Except.ok u =>
    if query = "" then
      Except.error (400, "Query is required.")
    else
      match process_query encode agentRun store query
          { email := u.email, full_name := u.full_name,
            travel_preferences := u.travel_preferences } with
      | none => Except.error (500, "Internal Server Error")
      | some r => Except.ok r

/-- Running a sequence of operations appends exactly the added texts, in order,
and every vector in the resulting index is either inherited or the embedding of
some text; the configured dimensionality never changes. -/
theorem runOps_spec (encode : String → List ℚ) (ops : List MemOp) :
    ∀ s : FAISSStore,
      (runOps encode s ops).embedding_dim = s.embedding_dim ∧
      (runOps encode s ops).texts = s.texts ++ addedTexts ops ∧
      (runOps encode s ops).vectors.length = s.vectors.length + (addedTexts ops).length ∧
      (∀ v ∈ (runOps encode s ops).vectors, v ∈ s.vectors ∨ ∃ t, v = encode t) := by
  induction ops with
  | nil =>
    intro s
    exact ⟨rfl, by simp [runOps, addedTexts], by simp [runOps, addedTexts],
      fun v hv => Or.inl hv⟩
  | cons op ops ih =>
    intro s
    cases op with
    | add t =>
      obtain ⟨h1, h2, h3, h4⟩ := ih (s.add_text encode t)
      simp only [runOps, addedTexts, List.filterMap_cons] at h1 h2 h3 h4 ⊢
      refine ⟨by simpa [FAISSStore.add_text] using h1, ?_, ?_, ?_⟩
      · rw [h2]
        simp [FAISSStore.add_text, addedTexts]
      · rw [h3]
        simp [FAISSStore.add_text, addedTexts]
        omega
      · intro v hv
        rcases h4 v hv with h | h
        · simp only [FAISSStore.add_text, List.mem_append, List.mem_singleton] at h
          rcases h with h | h
          · exact Or.inl h
          · exact Or.inr ⟨t, h⟩
        · exact Or.inr h
    | search q k =>
      obtain ⟨h1, h2, h3, h4⟩ := ih s
      simp only [runOps, addedTexts, List.filterMap_cons] at h1 h2 h3 h4 ⊢
      exact ⟨h1, by simpa [addedTexts] using h2, by simpa [addedTexts] using h3, h4⟩

namespace Claims

/-- C1: for every embedding model, after `add_text "hello"` on a fresh store,
`search "hello" 1` returns exactly `["hello"]` (so a result set containing
`"hello"`); but `search` on the empty store does not return an empty result
set — the `-1` padding label from FAISS passes the `i < len(texts)` guard
(`-1 < 0`) and `texts[-1]` on the empty list raises `IndexError` (`none`). -/
theorem c1_roundtrip_and_empty_store (encode : String → List ℚ) :
    (FAISSStore.new.add_text encode "hello").search encode "hello" 1 = some ["hello"] ∧
      FAISSStore.new.search encode "hello" 1 = none := by
  constructor <;> rfl

/-- C2: evaluation at the failing input for the claim that search never returns
more results than are stored: with exactly one stored text, `search` with
`top_k = 2` returns two results (the FAISS `-1` padding label passes the guard
and Python's negative indexing turns it into the last stored text). -/
theorem c2_overcount_one_stored_two_returned (encode : String → List ℚ) :
    (FAISSStore.new.add_text encode "a").search encode "a" 2 = some ["a", "a"] ∧
      (FAISSStore.new.add_text encode "a").texts.length = 1 := by
  constructor <;> rfl

/-- C4: evaluation at the failing input: on the fresh (empty) memory store —
the state of the global `faiss_store` at startup — `process_query` fails for
every query and profile, because `faiss_store.search(query, top_k=1)` raises
`IndexError` before any prompt is built, the agent is invoked, or anything is
appended to the store. -/
theorem c4_process_query_fails_on_empty_store (encode : String → List ℚ)
    (agentRun : String → String) (query : String) (p : ChatProfile) :
    process_query encode agentRun FAISSStore.new query p = none := rfl

/-- C3: the memory store is append-only. For every interleaving of `add` and
`search` calls, the stored-text list after the sequence is the original list
followed by exactly the added texts in order (so `search` never adds, removes
or modifies stored texts), and starting from the empty store the size equals
the number of `add` calls in the sequence. -/
theorem c3_append_only (encode : String → List ℚ) (ops : List MemOp) :
    (∀ s : FAISSStore, (runOps encode s ops).texts = s.texts ++ addedTexts ops) ∧
      (runOps encode FAISSStore.new ops).texts.length = (addedTexts ops).length := by
  have h := fun s => (runOps_spec encode ops s).2.1
  refine ⟨h, ?_⟩
  rw [h FAISSStore.new]
  simp [FAISSStore.new]

/-- C10: the index and the text list stay in lockstep. If every embedding the
model produces has the configured dimensionality 384, then after any operation
sequence from the fresh store the number of index vectors equals the number of
stored texts, every stored vector has dimensionality `embedding_dim`, each
`add_text` grows index and text list by exactly one, and a `search` operation
changes neither. -/
theorem c10_index_text_lockstep (encode : String → List ℚ) (ops : List MemOp)
    (s : FAISSStore) (hdim : ∀ t, (encode t).length = 384)
    (hs : s = runOps encode FAISSStore.new ops) :
    s.vectors.length = s.texts.length ∧
      s.embedding_dim = 384 ∧
      (∀ v ∈ s.vectors, v.length = s.embedding_dim) ∧
      (∀ t, (s.add_text encode t).vectors.length = s.vectors.length + 1 ∧
        (s.add_text encode t).texts.length = s.texts.length + 1) ∧
      (∀ q k, runOps encode s [MemOp.search q k] = s) := by
  obtain ⟨h1, h2, h3, h4⟩ := runOps_spec encode ops FAISSStore.new
  subst hs
  refine ⟨?_, ?_, ?_, ?_, fun q k => rfl⟩
  · rw [h2, h3]
    simp [FAISSStore.new]
  · rw [h1]; rfl
  · intro v hv
    rcases h4 v hv with h | ⟨t, ht⟩
    · simp [FAISSStore.new] at h
    · rw [h1, ht]
      exact hdim t
  · intro t
    simp [FAISSStore.add_text]

/-- Witness for C10 at a concrete constant embedding model and a concrete
operation sequence (one add, then one search). -/
theorem c10_index_text_lockstep_witness :
    (∀ t : String, ((fun _ : String => List.replicate 384 (0 : ℚ)) t).length = 384) ∧
      ((runOps (fun _ => List.replicate 384 (0 : ℚ)) FAISSStore.new
          [MemOp.add "hi", MemOp.search "hi" 1]).vectors.length =
        (runOps (fun _ => List.replicate 384 (0 : ℚ)) FAISSStore.new
          [MemOp.add "hi", MemOp.search "hi" 1]).texts.length ∧
        (runOps (fun _ => List.replicate 384 (0 : ℚ)) FAISSStore.new
          [MemOp.add "hi", MemOp.search "hi" 1]).embedding_dim = 384 ∧
        (∀ v ∈ (runOps (fun _ => List.replicate 384 (0 : ℚ)) FAISSStore.new
            [MemOp.add "hi", MemOp.search "hi" 1]).vectors,
          v.length = (runOps (fun _ => List.replicate 384 (0 : ℚ)) FAISSStore.new
            [MemOp.add "hi", MemOp.search "hi" 1]).embedding_dim) ∧
        (∀ t, ((runOps (fun _ => List.replicate 384 (0 : ℚ)) FAISSStore.new
              [MemOp.add "hi", MemOp.search "hi" 1]).add_text
                (fun _ => List.replicate 384 (0 : ℚ)) t).vectors.length =
            (runOps (fun _ => List.replicate 384 (0 : ℚ)) FAISSStore.new
              [MemOp.add "hi", MemOp.search "hi" 1]).vectors.length + 1 ∧
          ((runOps (fun _ => List.replicate 384 (0 : ℚ)) FAISSStore.new
              [MemOp.add "hi", MemOp.search "hi" 1]).add_text
                (fun _ => List.replicate 384 (0 : ℚ)) t).texts.length =
            (runOps (fun _ => List.replicate 384 (0 : ℚ)) FAISSStore.new
              [MemOp.add "hi", MemOp.search "hi" 1]).texts.length + 1) ∧
        (∀ q k, runOps (fun _ => List.replicate 384 (0 : ℚ))
            (runOps (fun _ => List.replicate 384 (0 : ℚ)) FAISSStore.new
              [MemOp.add "hi", MemOp.search "hi" 1]) [MemOp.search q k] =
          runOps (fun _ => List.replicate 384 (0 : ℚ)) FAISSStore.new
            [MemOp.add "hi", MemOp.search "hi" 1])) :=
  ⟨fun _ => List.length_replicate 384 0,
    c10_index_text_lockstep (fun _ => List.replicate 384 (0 : ℚ))
      [MemOp.add "hi", MemOp.search "hi" 1] _
      (fun _ => List.length_replicate 384 0) rfl⟩

/-- C5: for every location string and provider reply, a non-200 status makes
the weather tool's synchronous run return the fixed unable-to-fetch sentence
(and, the run being a total function, never a raised failure), while a 200
status makes it return the formatted description-plus-temperature string. -/
theorem c5_weather_tool (response : WeatherResponse) (query : String) :
    (response.status_code ≠ 200 →
      OpenWeatherTool.run response query =
        "Unable to fetch weather data for " ++ query ++ ".") ∧
      (response.status_code = 200 →
        OpenWeatherTool.run response query =
          "In " ++ query ++ ", the weather is '" ++ response.description ++
            "' with a temperature of " ++ response.temp ++ "Â°C.") := by
  constructor <;> intro h <;> simp [OpenWeatherTool.run, h]

/-- Witness for C5 at a concrete 404 reply and a concrete 200 reply. -/
theorem c5_weather_tool_witness :
    OpenWeatherTool.run ⟨404, "", ""⟩ "Paris" =
        "Unable to fetch weather data for " ++ "Paris" ++ "." ∧
      OpenWeatherTool.run ⟨200, "clear sky", "21"⟩ "Paris" =
        "In " ++ "Paris" ++ ", the weather is '" ++ "clear sky" ++
          "' with a temperature of " ++ "21" ++ "Â°C." :=
  ⟨(c5_weather_tool ⟨404, "", ""⟩ "Paris").1 (by decide),
    (c5_weather_tool ⟨200, "clear sky", "21"⟩ "Paris").2 rfl⟩

/-- C6: login failure is non-distinguishing. A run whose email has no `users`
row and a run whose email has a row but whose password fails the bcrypt check
both return status 400 with the identical generic detail, hence identical
error responses. -/
theorem c6_login_failure_nondistinguishing (checkpw : String → String → Bool)
    (now₁ now₂ : Nat) (db : List DBUser) (e₁ p₁ e₂ p₂ : String)
    (h₁ : findUser db e₁ = none)
    (h₂ : ∃ u, findUser db e₂ = some u ∧ checkpw p₂ u.hashed_password = false) :
    login checkpw now₁ db e₁ p₁ = Except.error (400, "Incorrect email or password") ∧
      login checkpw now₂ db e₂ p₂ = Except.error (400, "Incorrect email or password") ∧
      login checkpw now₁ db e₁ p₁ = login checkpw now₂ db e₂ p₂ := by
  obtain ⟨u, hu, hpw⟩ := h₂
  refine ⟨?_, ?_, ?_⟩ <;> simp [login, h₁, hu, hpw]

/-- Witness for C6: a one-user identity store, a nonexistent-email run and an
existing-email wrong-password run. -/
theorem c6_login_failure_nondistinguishing_witness :
    findUser [⟨"1", "a@x.com", "hash1", "A", "p"⟩] "b@x.com" = none ∧
      (∃ u, findUser [⟨"1", "a@x.com", "hash1", "A", "p"⟩] "a@x.com" = some u ∧
        (fun p h => p == "pw" && h == "hash1") "bad" u.hashed_password = false) ∧
      (login (fun p h => p == "pw" && h == "hash1") 5
            [⟨"1", "a@x.com", "hash1", "A", "p"⟩] "b@x.com" "pw" =
          Except.error (400, "Incorrect email or password") ∧
        login (fun p h => p == "pw" && h == "hash1") 7
            [⟨"1", "a@x.com", "hash1", "A", "p"⟩] "a@x.com" "bad" =
          Except.error (400, "Incorrect email or password") ∧
        login (fun p h => p == "pw" && h == "hash1") 5
            [⟨"1", "a@x.com", "hash1", "A", "p"⟩] "b@x.com" "pw" =
          login (fun p h => p == "pw" && h == "hash1") 7
            [⟨"1", "a@x.com", "hash1", "A", "p"⟩] "a@x.com" "bad") :=
  ⟨by decide, ⟨⟨"1", "a@x.com", "hash1", "A", "p"⟩, by decide, by decide⟩,
    c6_login_failure_nondistinguishing (fun p h => p == "pw" && h == "hash1") 5 7
      [⟨"1", "a@x.com", "hash1", "A", "p"⟩] "b@x.com" "pw" "a@x.com" "bad"
      (by decide)
      ⟨⟨"1", "a@x.com", "hash1", "A", "p"⟩, by decide, by decide⟩⟩

/-- C7: for every signed-up user, login with credentials that pass the bcrypt
check returns a bearer token whose payload has `sub` equal to the stored row's
email and `exp` equal to the issuance time plus exactly 30 minutes
(1800 seconds). -/
theorem c7_login_token_claims (checkpw : String → String → Bool) (now : Nat)
    (db : List DBUser) (email password : String) (u : DBUser)
    (hfind : findUser db email = some u)
    (hpw : checkpw password u.hashed_password = true) :
    login checkpw now db email password =
      Except.ok
        { access_token := { sub := some u.email, exp := now + 30 * 60 },
          token_type := "bearer" } := by
  simp [login, hfind, hpw, create_access_token, ACCESS_TOKEN_EXPIRE_MINUTES]

/-- Witness for C7 at a concrete store, password check and issuance time. -/
theorem c7_login_token_claims_witness :
    findUser [⟨"1", "a@x.com", "hash1", "A", "p"⟩] "a@x.com" =
        some ⟨"1", "a@x.com", "hash1", "A", "p"⟩ ∧
      (fun p h => p == "pw" && h == "hash1") "pw"
          (DBUser.hashed_password ⟨"1", "a@x.com", "hash1", "A", "p"⟩) = true ∧
      login (fun p h => p == "pw" && h == "hash1") 1000
          [⟨"1", "a@x.com", "hash1", "A", "p"⟩] "a@x.com" "pw" =
        Except.ok
          { access_token := { sub := some "a@x.com", exp := 1000 + 30 * 60 },
            token_type := "bearer" } :=
  ⟨by decide, by decide,
    c7_login_token_claims (fun p h => p == "pw" && h == "hash1") 1000
      [⟨"1", "a@x.com", "hash1", "A", "p"⟩] "a@x.com" "pw"
      ⟨"1", "a@x.com", "hash1", "A", "p"⟩ (by decide) (by decide)⟩

/-- C8: a token whose embedded expiry is in the past is rejected with the 401
credentials error by the authentication dependency and therefore by every
protected endpoint — profile read, profile update and chat — regardless of the
identity store, the memory store, the request body or the query. -/
theorem c8_expired_token_rejected (encode : String → List ℚ)
    (agentRun : String → String) (now : Nat) (db : List DBUser)
    (store : FAISSStore) (token : TokenPayload) (query : String)
    (body : UserProfileBody) (hexp : token.exp < now) :
    get_current_user now db token =
        Except.error (401, "Could not validate credentials") ∧
      read_profile now db token =
        Except.error (401, "Could not validate credentials") ∧
      update_profile now db token body =
        Except.error (401, "Could not validate credentials") ∧
      chat encode agentRun now db store token query =
        Except.error (401, "Could not validate credentials") := by
  have h : jwtDecode now token = Except.error () := by
    simp only [jwtDecode, if_pos (Nat.le_of_lt hexp)]
  have hg : get_current_user now db token =
      Except.error (401, "Could not validate credentials") := by
    simp [get_current_user, h, credentialsException]
  exact ⟨hg, by simp [read_profile, hg], by simp [update_profile, hg],
    by simp [chat, hg]⟩

/-- Witness for C8: a token that expired at time 100, inspected at time 200. -/
theorem c8_expired_token_rejected_witness :
    (100 : Nat) < 200 ∧
      (get_current_user 200 [] ⟨some "a@x.com", 100⟩ =
          Except.error (401, "Could not validate credentials") ∧
        read_profile 200 [] ⟨some "a@x.com", 100⟩ =
          Except.error (401, "Could not validate credentials") ∧
        update_profile 200 [] ⟨some "a@x.com", 100⟩ ⟨none, "", "", ""⟩ =
          Except.error (401, "Could not validate credentials") ∧
        chat (fun _ => [0]) (fun s => s) 200 [] FAISSStore.new
            ⟨some "a@x.com", 100⟩ "hi" =
          Except.error (401, "Could not validate credentials")) :=
  ⟨by decide,
    c8_expired_token_rejected (fun _ => [0]) (fun s => s) 200 [] FAISSStore.new
      ⟨some "a@x.com", 100⟩ "hi" ⟨none, "", "", ""⟩ (by decide)⟩

/-- C9: frame effect of `PUT /profile`. On a successful update, the result is
unchanged when the body's `id` and `email` fields are replaced by anything
(they are ignored), the stored email column is unchanged across the whole
table, and row by row: `email`, `id` and `hashed_password` are preserved, rows
not belonging to the authenticated user are untouched, and the user's row
changes exactly its `full_name` and `travel_preferences` columns to the body's
values. -/
theorem c9_update_profile_frame (now : Nat) (db : List DBUser)
    (token : TokenPayload) (body : UserProfileBody) (db2 : List DBUser)
    (ret : Option DBUser)
    (h : update_profile now db token body = Except.ok (db2, ret)) :
    (∀ i e, update_profile now db token
        { id := i, email := e, full_name := body.full_name,
          travel_preferences := body.travel_preferences } = Except.ok (db2, ret)) ∧
      db2.map DBUser.email = db.map DBUser.email ∧
      ∃ current, get_current_user now db token = Except.ok current ∧
        List.Forall₂ (fun (u u' : DBUser) =>
          u'.email = u.email ∧ u'.id = u.id ∧
            u'.hashed_password = u.hashed_password ∧
            (u.email ≠ current.email → u' = u) ∧
            (u.email = current.email →
              u' = { u with full_name := body.full_name,
                            travel_preferences := body.travel_preferences }))
          db db2 := by
  rcases hcur : get_current_user now db token with e | current
  · rw [update_profile, hcur] at h
    exact absurd h (by simp)
  · rw [update_profile, hcur] at h
    simp only [Except.ok.injEq, Prod.mk.injEq] at h
    obtain ⟨hdb2, hret⟩ := h
    refine ⟨?_, ?_, current, rfl, ?_⟩
    · intro i e
      rw [update_profile, hcur]
      simp only [Except.ok.injEq, Prod.mk.injEq]
      exact ⟨hdb2, hret⟩
    · rw [← hdb2, List.map_map]
      refine List.map_congr_left ?_
      intro u _
      by_cases he : u.email = current.email <;> simp [he]
    · rw [← hdb2]
      rw [List.forall₂_map_right_iff, List.forall₂_same]
      intro u _
      by_cases he : u.email = current.email <;> simp [he]

/-- Witness for C9: a two-user table, a valid token for the first user, and a
body whose `id` and `email` point elsewhere. -/
theorem c9_update_profile_frame_witness :
    update_profile 50 [⟨"1", "a@x.com", "h1", "A", "p1"⟩, ⟨"2", "b@x.com", "h2", "B", "p2"⟩]
        ⟨some "a@x.com", 100⟩ ⟨some "zzz", "evil@x.com", "NewName", "newPrefs"⟩ =
      Except.ok
        ([⟨"1", "a@x.com", "h1", "NewName", "newPrefs"⟩, ⟨"2", "b@x.com", "h2", "B", "p2"⟩],
          some ⟨"1", "a@x.com", "h1", "NewName", "newPrefs"⟩) ∧
      ((∀ i e, update_profile 50
          [⟨"1", "a@x.com", "h1", "A", "p1"⟩, ⟨"2", "b@x.com", "h2", "B", "p2"⟩]
          ⟨some "a@x.com", 100⟩ ⟨i, e, "NewName", "newPrefs"⟩ =
        Except.ok
          ([⟨"1", "a@x.com", "h1", "NewName", "newPrefs"⟩,
              ⟨"2", "b@x.com", "h2", "B", "p2"⟩],
            some ⟨"1", "a@x.com", "h1", "NewName", "newPrefs"⟩)) ∧
      [⟨"1", "a@x.com", "h1", "NewName", "newPrefs"⟩,
          ⟨"2", "b@x.com", "h2", "B", "p2"⟩].map DBUser.email =
        [⟨"1", "a@x.com", "h1", "A", "p1"⟩,
          ⟨"2", "b@x.com", "h2", "B", "p2"⟩].map DBUser.email ∧
      ∃ current, get_current_user 50
            [⟨"1", "a@x.com", "h1", "A", "p1"⟩, ⟨"2", "b@x.com", "h2", "B", "p2"⟩]
            ⟨some "a@x.com", 100⟩ = Except.ok current ∧
          List.Forall₂ (fun (u u' : DBUser) =>
            u'.email = u.email ∧ u'.id = u.id ∧
              u'.hashed_password = u.hashed_password ∧
              (u.email ≠ current.email → u' = u) ∧
              (u.email = current.email →
                u' = { u with full_name := "NewName",
                              travel_preferences := "newPrefs" }))
            [⟨"1", "a@x.com", "h1", "A", "p1"⟩, ⟨"2", "b@x.com", "h2", "B", "p2"⟩]
            [⟨"1", "a@x.com", "h1", "NewName", "newPrefs"⟩,
              ⟨"2", "b@x.com", "h2", "B", "p2"⟩]) :=
  ⟨by rfl,
    c9_update_profile_frame 50
      [⟨"1", "a@x.com", "h1", "A", "p1"⟩, ⟨"2", "b@x.com", "h2", "B", "p2"⟩]
      ⟨some "a@x.com", 100⟩ ⟨some "zzz", "evil@x.com", "NewName", "newPrefs"⟩
      [⟨"1", "a@x.com", "h1", "NewName", "newPrefs"⟩, ⟨"2", "b@x.com", "h2", "B", "p2"⟩]
      (some ⟨"1", "a@x.com", "h1", "NewName", "newPrefs"⟩) (by rfl)⟩

end Claims

end TravelGuide
